import Mathlib

/-!
Shallow embedding of the audit-trail subsystem of the OzarkFinances
repository (`src/audit_tracker.py`, class `AuditTracker`), used to check the
natural-language specification against the code.

Modelling conventions:
* Python/JSON values carried in snapshots are modelled by `Val`
  (null, booleans, integers, strings); a snapshot dict is an association
  list `Snapshot`.  `dict.get(k)` (default `None`) is `snapGet`.
* The SQLite store is a `Store`: a list of rows in insertion order plus the
  next AUTOINCREMENT id, and a `failing` flag modelling an unreachable /
  raising store.  `insertRow` and `readRows` are the primitive store
  operations; both fail exactly when the store is failing.
* `json.dumps` is modelled by the total serializers `Val.dump`,
  `dumpSnapshot`, `dumpChanges` (the snapshots the tracker receives are
  JSON-representable maps, on which `json.dumps` is total).
* `datetime.now().strftime(...)` is an input: `log_action` takes the
  timestamp string `now` as an explicit final parameter.
* SQLite TEXT comparison (default BINARY collation on UTF-8) is modelled by
  `strLe`, codepoint-lexicographic comparison, which agrees with byte-wise
  UTF-8 order.
* `ORDER BY timestamp DESC` is realised by the stable insertion sort
  `sortDesc`; the SQL contract itself — a permutation of the input that is
  pairwise descending in `timestamp`, with no constraint on the relative
  order of equal timestamps — is the relation `IsOrderByTimestampDesc`,
  and `sortDesc` is proved to satisfy it.
* The storage-assigned `created_at` column (SQL `DEFAULT CURRENT_TIMESTAMP`)
  is not part of any claim and is not modelled.
-/

/-- A JSON-representable Python value as carried in audit snapshots. -/
inductive Val where
  | null
  | bool (b : Bool)
  | num (n : Int)
  | str (s : String)
  deriving DecidableEq, Repr

/-- A row/dict snapshot: an association list from field name to value. -/
abbrev Snapshot := List (String × Val)

/-- Python `dict.get(key)`: the stored value, or `None` when absent. -/
def snapGet (s : Snapshot) (k : String) : Val :=
  (s.lookup k).getD Val.null

/-- The key set of a snapshot (`dict.keys()`). -/
def snapKeys (s : Snapshot) : List String :=
  s.map Prod.fst

/-- Embedding of `AuditTracker._calculate_changes` (src/audit_tracker.py lines 134-162):
union of the two key sets, keeping each key whose looked-up values differ,
mapped to its (old, new) pair. -/
def calculateChanges (old_values new_values : Snapshot) : List (String × Val × Val) :=
  ((snapKeys old_values ++ snapKeys new_values).dedup).filterMap (fun k =>
    let old_val := snapGet old_values k
    let new_val := snapGet new_values k
    if old_val ≠ new_val then some (k, old_val, new_val) else none)

/-- Serialization of a single value (`json.dumps`). -/
def Val.dump : Val → String
  | Val.null => "null"
  | Val.bool true => "true"
  | Val.bool false => "false"
  | Val.num n => toString n
  | Val.str s => "\"" ++ s ++ "\""

/-- Serialization of a snapshot dict (`json.dumps`). -/
def dumpSnapshot (s : Snapshot) : String :=
  "\x7b" ++ String.intercalate ", " (s.map (fun kv => "\"" ++ kv.1 ++ "\": " ++ kv.2.dump)) ++ "\x7d"

/-- One entry of a serialized changes dict: `key: {"old": ..., "new": ...}`. -/
def dumpChange (c : String × Val × Val) : String :=
  "\"" ++ c.1 ++ "\": \x7b\"old\": " ++ c.2.1.dump ++ ", \"new\": " ++ c.2.2.dump ++ "\x7d"

/-- Serialization of a changes dict (`json.dumps`). -/
def dumpChanges (cs : List (String × Val × Val)) : String :=
  "\x7b" ++ String.intercalate ", " (cs.map dumpChange) ++ "\x7d"

/-- One row of the `audit_log` table (schema at src/audit_tracker.py
lines 25-41); nullable columns are `Option`. -/
structure Row where
  id : Nat
  timestamp : String
  action : String
  table_name : String
  record_id : String
  user_info : Option String
  changes : Option String
  old_values : Option String
  new_values : Option String
  ip_address : Option String
  user_agent : Option String
  session_id : Option String
  deriving DecidableEq, Repr

/-- A failure raised by the underlying SQLite store. -/
inductive DbError where
  | unavailable
  deriving DecidableEq, Repr

/-- The audit database: rows in insertion order, the next AUTOINCREMENT id,
and whether the store currently raises on access. -/
structure Store where
  rows : List Row
  nextId : Nat
  failing : Bool
  deriving DecidableEq, Repr

/-- The insert primitive (`INSERT INTO audit_log ...`): appends one row with the next id, or raises
when the store is unavailable. -/
def insertRow (st : Store) (r : Row) : Except DbError Store :=
  if st.failing then Except.error DbError.unavailable
  else Except.ok { st with rows := st.rows ++ [r], nextId := st.nextId + 1 }

/-- The read primitive (`SELECT * FROM audit_log`): all rows, or raises when unavailable. -/
def readRows (st : Store) : Except DbError (List Row) :=
  if st.failing then Except.error DbError.unavailable
  else Except.ok st.rows

/-- The Flask request object as used by `log_action`: `remote_addr` (may be
`None`), the optional `User-Agent` header, and the optional session id. -/
structure Request where
  remote_addr : Option String
  userAgent : Option String
  sessionId : Option String
  deriving DecidableEq, Repr

/-- Python truthiness of an optional dict argument: `None` and the empty
dict are falsy. -/
def snapTruthy : Option Snapshot → Bool
  | none => false
  | some s => !s.isEmpty

/-- The row built inside `log_action` (src/audit_tracker.py lines 90-126):
changes are computed only for `UPDATE` with both snapshots truthy, optional
dicts are serialized when truthy and NULL otherwise, and the attribution
fields mirror lines 97-105 (`headers.get('User-Agent', '')` and
`session.get('session_id', '')` default to the empty string). -/
def logRow (nextId : Nat) (now action table_name record_id : String)
    (old_values new_values user_info : Option Snapshot)
    (request : Option Request) : Row :=
  let changes :=
    if action == "UPDATE" && snapTruthy old_values && snapTruthy new_values then
      calculateChanges (old_values.getD []) (new_values.getD [])
    else []
  { id := nextId
    timestamp := now
    action := action
    table_name := table_name
    record_id := record_id
    user_info := if snapTruthy user_info then some (dumpSnapshot (user_info.getD [])) else none
    changes := if changes.isEmpty then none else some (dumpChanges changes)
    old_values := if snapTruthy old_values then some (dumpSnapshot (old_values.getD [])) else none
    new_values := if snapTruthy new_values then some (dumpSnapshot (new_values.getD [])) else none
    ip_address := match request with
      | none => none
      | some r => r.remote_addr
    user_agent := match request with
      | none => none
      | some r => some (r.userAgent.getD "")
    session_id := match request with
      | none => none
      | some r => some (r.sessionId.getD "") }

/-- Embedding of `AuditTracker.log_action` (src/audit_tracker.py lines 75-132): builds the
row and inserts it; the surrounding `try/except Exception` turns any store
failure into a no-op (the error is only logged), so the function always
returns a store. -/
def log_action (st : Store) (action table_name record_id : String)
    (old_values new_values user_info : Option Snapshot)
    (request : Option Request) (now : String) : Store :=
  match insertRow st (logRow st.nextId now action table_name record_id
      old_values new_values user_info request) with
  | Except.ok st' => st'
  | Except.error _ => st

/-- Codepoint-lexicographic order on character lists; on UTF-8 text this is
the byte-wise order SQLite's default BINARY collation uses for TEXT. -/
def lexLe : List Char → List Char → Bool
  | [], _ => true
  | _ :: _, [] => false
  | x :: xs, y :: ys =>
    if x.toNat < y.toNat then true
    else if y.toNat < x.toNat then false
    else lexLe xs ys

/-- SQLite TEXT comparison `a <= b` (BINARY collation). -/
def strLe (a b : String) : Bool :=
  lexLe a.data b.data

/-- Row `a` may come before row `b` under `ORDER BY timestamp DESC`. -/
def tsDesc (a b : Row) : Prop :=
  strLe b.timestamp a.timestamp = true

/-- The contract of SQL `ORDER BY timestamp DESC`: the output is a
permutation of the input rows that is pairwise non-increasing in
`timestamp`.  The relative order of rows with equal timestamps is NOT
constrained — the query has no secondary sort key. -/
def IsOrderByTimestampDesc (input output : List Row) : Prop :=
  output.Perm input ∧ output.Pairwise tsDesc

/-- Insert a row into a timestamp-descending list, after any earlier row
with an equal or later timestamp (stable realisation of the sort). -/
def insertDesc (r : Row) : List Row → List Row
  | [] => [r]
  | x :: xs =>
    if strLe x.timestamp r.timestamp then r :: x :: xs
    else x :: insertDesc r xs

/-- A deterministic realisation of `ORDER BY timestamp DESC` (stable
insertion sort). -/
def sortDesc : List Row → List Row
  | [] => []
  | r :: rs => insertDesc r (sortDesc rs)

/-- One optional filter clause of `get_audit_logs`: Python only appends the
`AND` clause when the argument is truthy, so `None` and the empty string
both leave the clause out. -/
def passes (filt : Option String) (test : String → Bool) : Bool :=
  match filt with
  | none => true
  | some s => if s = "" then true else test s

/-- The `WHERE` clause assembled in `get_audit_logs` (src/audit_tracker.py
lines 167-188): conjunction of the optional equality filters and the
timestamp bounds. -/
def rowMatches (table_name action record_id date_from date_to : Option String)
    (r : Row) : Bool :=
  passes table_name (fun s => r.table_name == s) &&
  passes action (fun s => r.action == s) &&
  passes record_id (fun s => r.record_id == s) &&
  passes date_from (fun s => strLe s r.timestamp) &&
  passes date_to (fun s => strLe r.timestamp s)

/-- Embedding of `AuditTracker.get_audit_logs` (src/audit_tracker.py lines 164-197):
filter, order by timestamp descending, then `LIMIT ? OFFSET ?`.  The Python
defaults are `limit=100, offset=0`; the embedding passes both explicitly.
Read failures are not caught and propagate. -/
def get_audit_logs (st : Store) (table_name action record_id date_from date_to : Option String)
    (limit offset : Nat) : Except DbError (List Row) :=
  match readRows st with
  | Except.error e => Except.error e
  | Except.ok rows =>
      Except.ok (((sortDesc (rows.filter
        (rowMatches table_name action record_id date_from date_to))).drop offset).take limit)

/-- Embedding of `AuditTracker.get_record_history` (src/audit_tracker.py lines 250-252). -/
def get_record_history (st : Store) (table_name record_id : String) :
    Except DbError (List Row) :=
  get_audit_logs st (some table_name) none (some record_id) none none 1000 0

/-- Maximum of a list of timestamps under the SQLite TEXT order
(SQL `MAX(timestamp)`, NULL on an empty table). -/
def maxTs : List String → Option String
  | [] => none
  | x :: xs =>
    match maxTs xs with
    | none => some x
    | some m => some (if strLe x m then m else x)

/-- Minimum of a list of timestamps (SQL `MIN(timestamp)`). -/
def minTs : List String → Option String
  | [] => none
  | x :: xs =>
    match minTs xs with
    | none => some x
    | some m => some (if strLe m x then m else x)

/-- Insert into a list sorted by descending `key` (realises
`ORDER BY count DESC`). -/
def insertKeyDesc {α : Type} (key : α → Nat) (a : α) : List α → List α
  | [] => [a]
  | x :: xs => if key x ≤ key a then a :: x :: xs else x :: insertKeyDesc key a xs

/-- Sort by descending `key` (realises `ORDER BY count DESC`). -/
def sortKeyDesc {α : Type} (key : α → Nat) : List α → List α
  | [] => []
  | x :: xs => insertKeyDesc key x (sortKeyDesc key xs)

/-- The dict returned by `get_statistics`, flattened: the `overall` dict,
the per-action counts, the per-table counts with last activity, and the
trailing-24-hour count. -/
structure Statistics where
  total_actions : Nat
  tables_tracked : Nat
  records_affected : Nat
  last_activity : Option String
  first_activity : Option String
  actions : List (String × Nat)
  tables : List (String × Nat × Option String)
  recent_activity : Nat
  deriving DecidableEq, Repr

/-- Embedding of `AuditTracker.get_statistics` (src/audit_tracker.py lines 199-248).
`dayAgo` is the cutoff string SQLite computes for
`datetime('now', '-1 day')`; the recent-activity query counts rows with
`timestamp >= dayAgo`.  Read failures are not caught and propagate. -/
def get_statistics (st : Store) (dayAgo : String) : Except DbError Statistics :=
  match readRows st with
  | Except.error e => Except.error e
  | Except.ok rows =>
      Except.ok
        { total_actions := rows.length
          tables_tracked := ((rows.map Row.table_name).dedup).length
          records_affected := ((rows.map Row.record_id).dedup).length
          last_activity := maxTs (rows.map Row.timestamp)
          first_activity := minTs (rows.map Row.timestamp)
          actions := sortKeyDesc Prod.snd
            (((rows.map Row.action).dedup).map (fun a =>
              (a, (rows.filter (fun r => r.action == a)).length)))
          tables := sortKeyDesc (fun t => t.2.1)
            (((rows.map Row.table_name).dedup).map (fun t =>
              (t, (rows.filter (fun r => r.table_name == t)).length,
                maxTs ((rows.filter (fun r => r.table_name == t)).map Row.timestamp))))
          recent_activity := (rows.filter (fun r => strLe dayAgo r.timestamp)).length }

/-- Totality of `lexLe`. -/
theorem lexLe_total (a : List Char) : ∀ b : List Char, lexLe a b = true ∨ lexLe b a = true := by
  induction a with
  | nil => intro b; left; rfl
  | cons x xs ih =>
    intro b
    cases b with
    | nil => right; rfl
    | cons y ys =>
      by_cases h1 : x.toNat < y.toNat
      · left; simp [lexLe, h1]
      · by_cases h2 : y.toNat < x.toNat
        · right; simp [lexLe, h1, h2]
        · rcases ih ys with h | h
          · left; simp [lexLe, h1, h2, h]
          · right; simp [lexLe, h1, h2, h]

/-- Transitivity of `lexLe`. -/
theorem lexLe_trans (a : List Char) :
    ∀ b c : List Char, lexLe a b = true → lexLe b c = true → lexLe a c = true := by
  induction a with
  | nil => intro b c _ _; rfl
  | cons x xs ih =>
    intro b c hab hbc
    cases b with
    | nil => simp [lexLe] at hab
    | cons y ys =>
      cases c with
      | nil => simp [lexLe] at hbc
      | cons z zs =>
        simp only [lexLe] at hab hbc ⊢
        by_cases hxy : x.toNat < y.toNat
        · by_cases hyz : y.toNat < z.toNat
          · have hxz : x.toNat < z.toNat := by omega
            simp [hxz]
          · by_cases hzy : z.toNat < y.toNat
            · simp [hyz, hzy] at hbc
            · have hxz : x.toNat < z.toNat := by omega
              simp [hxz]
        · by_cases hyx : y.toNat < x.toNat
          · simp [hxy, hyx] at hab
          · by_cases hyz : y.toNat < z.toNat
            · have hxz : x.toNat < z.toNat := by omega
              simp [hxz]
            · by_cases hzy : z.toNat < y.toNat
              · simp [hyz, hzy] at hbc
              · have hxz : ¬ x.toNat < z.toNat := by omega
                have hzx : ¬ z.toNat < x.toNat := by omega
                simp only [hxy, hyx, if_false, if_neg] at hab
                simp only [hyz, hzy, if_false, if_neg] at hbc
                simp only [hxz, hzx, if_false, if_neg]
                exact ih ys zs (by simpa using hab) (by simpa using hbc)

/-- Totality of `strLe`. -/
theorem strLe_total (a b : String) : strLe a b = true ∨ strLe b a = true :=
  lexLe_total a.data b.data

/-- Transitivity of `strLe`. -/
theorem strLe_trans {a b c : String} (hab : strLe a b = true) (hbc : strLe b c = true) :
    strLe a c = true :=
  lexLe_trans a.data b.data c.data hab hbc

/-- Membership in `insertDesc`. -/
theorem mem_insertDesc (r : Row) (l : List Row) (x : Row) :
    x ∈ insertDesc r l ↔ x = r ∨ x ∈ l := by
  induction l with
  | nil => simp [insertDesc]
  | cons y ys ih =>
    cases hc : strLe y.timestamp r.timestamp with
    | false =>
      simp only [insertDesc, hc, Bool.false_eq_true, if_false, List.mem_cons, ih]
      tauto
    | true => simp [insertDesc, hc, List.mem_cons]

/-- Membership in `sortDesc`. -/
theorem mem_sortDesc (l : List Row) (x : Row) : x ∈ sortDesc l ↔ x ∈ l := by
  induction l with
  | nil => simp [sortDesc]
  | cons y ys ih => simp [sortDesc, mem_insertDesc, ih, List.mem_cons]

/-- Inserting with `insertDesc` permutes consing the element. -/
theorem insertDesc_perm (r : Row) (l : List Row) : (insertDesc r l).Perm (r :: l) := by
  induction l with
  | nil => simp [insertDesc]
  | cons y ys ih =>
    by_cases hc : strLe y.timestamp r.timestamp = true
    · simp [insertDesc, hc]
    · simp only [insertDesc, hc, if_false]
      exact (ih.cons y).trans (List.Perm.swap r y ys)

/-- The sort `sortDesc` permutes its input. -/
theorem sortDesc_perm (l : List Row) : (sortDesc l).Perm l := by
  induction l with
  | nil => simp [sortDesc]
  | cons y ys ih => exact (insertDesc_perm y (sortDesc ys)).trans (ih.cons y)

/-- Insertion with `insertDesc` preserves the timestamp-descending invariant. -/
theorem pairwise_insertDesc (r : Row) (l : List Row) (h : l.Pairwise tsDesc) :
    (insertDesc r l).Pairwise tsDesc := by
  induction l with
  | nil => simp [insertDesc, tsDesc]
  | cons x xs ih =>
    rcases List.pairwise_cons.1 h with ⟨hx, hxs⟩
    by_cases hc : strLe x.timestamp r.timestamp = true
    · simp only [insertDesc, hc, if_true]
      refine List.Pairwise.cons ?_ h
      intro b hb
      rcases List.mem_cons.1 hb with rfl | hbxs
      · exact hc
      · exact strLe_trans (hx b hbxs) hc
    · simp only [insertDesc, hc, if_false]
      refine List.Pairwise.cons ?_ (ih hxs)
      intro b hb
      rcases (mem_insertDesc r xs b).1 hb with rfl | hbxs
      · rcases strLe_total x.timestamp b.timestamp with h' | h'
        · exact absurd h' hc
        · exact h'
      · exact hx b hbxs

/-- The output of `sortDesc` is pairwise timestamp-descending. -/
theorem sortDesc_pairwise (l : List Row) : (sortDesc l).Pairwise tsDesc := by
  induction l with
  | nil => simp [sortDesc]
  | cons y ys ih => exact pairwise_insertDesc y (sortDesc ys) ih

/-- The sort `sortDesc` satisfies the SQL `ORDER BY timestamp DESC` contract. -/
theorem sortDesc_isOrderBy (l : List Row) : IsOrderByTimestampDesc l (sortDesc l) :=
  ⟨sortDesc_perm l, sortDesc_pairwise l⟩

/-- A fresh, reachable audit store. -/
def emptyStore : Store := { rows := [], nextId := 1, failing := false }

/-- An unreachable store: every access raises. -/
def badStore : Store := { rows := [], nextId := 1, failing := true }

/-- A concrete snapshot (the spec's end-to-end example). -/
def demoSnap : Snapshot := [("payment_status", Val.str "pending")]

/-- The updated snapshot of the spec's end-to-end example. -/
def demoNew : Snapshot := [("payment_status", Val.str "paid")]

/-- An older concrete audit row. -/
def rowOld : Row :=
  { id := 1, timestamp := "2024-01-01 10:00:00.000000", action := "INSERT",
    table_name := "Invoices", record_id := "INV-1", user_info := none,
    changes := none, old_values := none, new_values := none,
    ip_address := none, user_agent := none, session_id := none }

/-- A newer concrete audit row. -/
def rowNew : Row :=
  { rowOld with id := 2, timestamp := "2024-01-02 10:00:00.000000", action := "UPDATE" }

/-- A store holding the two rows above in insertion order. -/
def twoStore : Store := { rows := [rowOld, rowNew], nextId := 3, failing := false }

/-- First of two rows sharing one timestamp. -/
def rowT1 : Row := { rowOld with id := 1 }

/-- Second row with the same timestamp as `rowT1` but a later id. -/
def rowT2 : Row := { rowOld with id := 2 }

/-- A store with two equal-timestamp rows. -/
def tieStore : Store := { rows := [rowT1, rowT2], nextId := 3, failing := false }

/-- An Invoices UPDATE row. -/
def rowInv : Row :=
  { id := 1, timestamp := "2024-01-03 10:00:00.000000", action := "UPDATE",
    table_name := "Invoices", record_id := "INV-1", user_info := none,
    changes := none, old_values := none, new_values := none,
    ip_address := none, user_agent := none, session_id := none }

/-- A Withdraws INSERT row. -/
def rowWd : Row :=
  { rowInv with
    id := 2
    timestamp := "2024-01-02 10:00:00.000000"
    action := "INSERT"
    table_name := "Withdraws"
    record_id := "W-1" }

/-- A Debts DELETE row. -/
def rowDebt : Row :=
  { rowInv with
    id := 3
    timestamp := "2024-01-01 10:00:00.000000"
    action := "DELETE"
    table_name := "Debts"
    record_id := "D-1" }

/-- A store with rows across three tables and three actions. -/
def threeStore : Store := { rows := [rowInv, rowWd, rowDebt], nextId := 4, failing := false }

/-- A request whose user-agent is present but whose address and session are
absent. -/
def demoRequest : Request := { remote_addr := none, userAgent := some "TestAgent", sessionId := none }

/-- A request that carries an address but no `User-Agent` header and no
session id. -/
def absentUA : Request := { remote_addr := some "1.2.3.4", userAgent := none, sessionId := none }

/-- C1: `log_action` never lets a failure escape: it always returns a store;
when the underlying insert raises the exception is caught (`except` at
src/audit_tracker.py line 131) and zero rows are appended, and on success
exactly one row is appended. -/
theorem claim1_log_action_never_raises
    (st : Store) (action table_name record_id : String)
    (old_values new_values user_info : Option Snapshot)
    (request : Option Request) (now : String) :
    (log_action st action table_name record_id old_values new_values user_info request now).rows
      = (if st.failing then st.rows
         else st.rows ++ [logRow st.nextId now action table_name record_id
            old_values new_values user_info request]) ∧
    (log_action st action table_name record_id old_values new_values user_info request now).rows.length
      = st.rows.length + (if st.failing then 0 else 1) := by
  cases hf : st.failing <;> simp [log_action, insertRow, hf]

/-- C2: `_calculate_changes old new` contains exactly the keys of the union
of the two key sets whose looked-up values differ (a missing key reading as
the null sentinel), each mapped to its (old, new) pair, and nothing else. -/
theorem claim2_calculate_changes_exact
    (old_values new_values : Snapshot) (k : String) (o n : Val) :
    (k, o, n) ∈ calculateChanges old_values new_values ↔
      ((k ∈ snapKeys old_values ∨ k ∈ snapKeys new_values) ∧
        snapGet old_values k ≠ snapGet new_values k ∧
        o = snapGet old_values k ∧ n = snapGet new_values k) := by
  constructor
  · intro h
    simp only [calculateChanges, List.mem_filterMap, List.mem_dedup, List.mem_append] at h
    obtain ⟨a, hmem, hfa⟩ := h
    by_cases hne : snapGet old_values a ≠ snapGet new_values a
    · rw [if_pos hne] at hfa
      obtain ⟨rfl, rfl, rfl⟩ : a = k ∧ snapGet old_values a = o ∧ snapGet new_values a = n := by
        simpa using hfa
      exact ⟨hmem, hne, rfl, rfl⟩
    · rw [if_neg hne] at hfa
      exact absurd hfa (by simp)
  · rintro ⟨hk, hne, rfl, rfl⟩
    simp only [calculateChanges, List.mem_filterMap, List.mem_dedup, List.mem_append]
    exact ⟨k, hk, by rw [if_pos hne]⟩

/-- C9: the diff of a snapshot against itself is the empty map. -/
theorem claim9_diff_noop_empty (x : Snapshot) : calculateChanges x x = [] := by
  simp [calculateChanges, List.filterMap_eq_nil_iff]

/-- C6: `get_record_history` is exactly `get_audit_logs` restricted to the
given table and record, with the fixed limit 1000 and offset 0. -/
theorem claim6_record_history_refines_get_audit_logs
    (st : Store) (table_name record_id : String) :
    get_record_history st table_name record_id
      = get_audit_logs st (some table_name) none (some record_id) none none 1000 0 := rfl

/-- C10: an empty-map `old_values`, `new_values` or `user_info` argument is
treated exactly like an absent one: the whole call is unchanged, the
corresponding column is NULL, and an UPDATE with an empty snapshot on either
side computes no changes. -/
theorem claim10_empty_map_as_absent
    (st : Store) (action table_name record_id : String)
    (old_values new_values user_info : Option Snapshot)
    (request : Option Request) (now : String) :
    log_action st action table_name record_id (some []) new_values user_info request now
      = log_action st action table_name record_id none new_values user_info request now ∧
    log_action st action table_name record_id old_values (some []) user_info request now
      = log_action st action table_name record_id old_values none user_info request now ∧
    log_action st action table_name record_id old_values new_values (some []) request now
      = log_action st action table_name record_id old_values new_values none request now ∧
    (logRow st.nextId now action table_name record_id (some []) new_values user_info request).old_values = none ∧
    (logRow st.nextId now action table_name record_id old_values (some []) user_info request).new_values = none ∧
    (logRow st.nextId now action table_name record_id old_values new_values (some []) request).user_info = none ∧
    (logRow st.nextId now "UPDATE" table_name record_id (some []) new_values user_info request).changes = none ∧
    (logRow st.nextId now "UPDATE" table_name record_id old_values (some []) user_info request).changes = none := by
  refine ⟨?_, ?_, ?_, ?_, ?_, ?_, ?_, ?_⟩ <;> simp [log_action, logRow, snapTruthy]

/-- C3 counterexample: an UPDATE with identical non-empty snapshots stores
NULL in the `changes` column (`json.dumps(changes) if changes else None` at
src/audit_tracker.py line 120), not the serialized empty map the claim
requires. -/
theorem claim3_counterexample :
    ((log_action emptyStore "UPDATE" "Invoices" "INV-1" (some demoSnap) (some demoSnap)
        none none "2024-01-01 10:00:00.000000").rows.map Row.changes) = [none] ∧
    calculateChanges demoSnap demoSnap = [] ∧
    (none : Option String) ≠ some (dumpChanges (calculateChanges demoSnap demoSnap)) :=
  ⟨by decide, by decide, by decide⟩

/-- C3 (amended): for a successful UPDATE with both snapshots supplied and
non-empty, the stored `changes` column is the serialized field-level diff
when that diff is non-empty, and NULL (absent) when the snapshots are
identical — not an empty map. -/
theorem claim3_changes_null_when_diff_empty
    (st : Store) (table_name record_id : String) (ov nv : Snapshot)
    (user_info : Option Snapshot) (request : Option Request) (now : String)
    (hov : ov ≠ []) (hnv : nv ≠ []) (hf : st.failing = false) :
    (log_action st "UPDATE" table_name record_id (some ov) (some nv) user_info request now).rows
      = st.rows ++ [logRow st.nextId now "UPDATE" table_name record_id
          (some ov) (some nv) user_info request] ∧
    (logRow st.nextId now "UPDATE" table_name record_id (some ov) (some nv) user_info request).changes
      = (if calculateChanges ov nv = [] then none
         else some (dumpChanges (calculateChanges ov nv))) ∧
    (logRow st.nextId now "UPDATE" table_name record_id (some ov) (some nv) user_info request).old_values
      = some (dumpSnapshot ov) ∧
    (logRow st.nextId now "UPDATE" table_name record_id (some ov) (some nv) user_info request).new_values
      = some (dumpSnapshot nv) := by
  obtain ⟨a, as, rfl⟩ : ∃ a as, ov = a :: as := by
    cases ov with
    | nil => exact absurd rfl hov
    | cons a as => exact ⟨a, as, rfl⟩
  obtain ⟨b, bs, rfl⟩ : ∃ b bs, nv = b :: bs := by
    cases nv with
    | nil => exact absurd rfl hnv
    | cons b bs => exact ⟨b, bs, rfl⟩
  refine ⟨by simp [log_action, insertRow, hf], ?_, ?_, ?_⟩ <;>
    simp [logRow, snapTruthy, List.isEmpty_iff]

/-- C3 witness: the amended statement at the spec's end-to-end example. -/
theorem claim3_witness :
    (log_action emptyStore "UPDATE" "Invoices" "INV-1" (some demoSnap) (some demoNew)
        none none "2024-01-02 10:00:00.000000").rows
      = emptyStore.rows ++ [logRow emptyStore.nextId "2024-01-02 10:00:00.000000" "UPDATE"
          "Invoices" "INV-1" (some demoSnap) (some demoNew) none none] ∧
    (logRow emptyStore.nextId "2024-01-02 10:00:00.000000" "UPDATE"
        "Invoices" "INV-1" (some demoSnap) (some demoNew) none none).changes
      = (if calculateChanges demoSnap demoNew = [] then none
         else some (dumpChanges (calculateChanges demoSnap demoNew))) ∧
    (logRow emptyStore.nextId "2024-01-02 10:00:00.000000" "UPDATE"
        "Invoices" "INV-1" (some demoSnap) (some demoNew) none none).old_values
      = some (dumpSnapshot demoSnap) ∧
    (logRow emptyStore.nextId "2024-01-02 10:00:00.000000" "UPDATE"
        "Invoices" "INV-1" (some demoSnap) (some demoNew) none none).new_values
      = some (dumpSnapshot demoNew) :=
  claim3_changes_null_when_diff_empty emptyStore "Invoices" "INV-1" demoSnap demoNew
    none none "2024-01-02 10:00:00.000000" (by decide) (by decide) rfl

/-- C4 counterexample: with two equal-timestamp rows inserted as ids 1 then
2, the query's realisation returns them with the LOWER id first, and that
output satisfies the full `ORDER BY timestamp DESC` contract — the SQL has
no secondary sort key, so descending-id tie-breaking is not guaranteed. -/
theorem claim4_counterexample :
    get_audit_logs tieStore none none none none none 100 0 = Except.ok [rowT1, rowT2] ∧
    rowT1.timestamp = rowT2.timestamp ∧
    rowT1.id < rowT2.id ∧
    IsOrderByTimestampDesc tieStore.rows [rowT1, rowT2] := by
  refine ⟨rfl, rfl, by decide, List.Perm.refl _, ?_⟩
  refine List.Pairwise.cons ?_ (List.pairwise_singleton _ _)
  intro b hb
  rw [List.mem_singleton] at hb
  subst hb
  exact rfl

/-- C4 (amended): every sequence `get_audit_logs` returns is pairwise
non-increasing in `timestamp`; the order among equal timestamps is left
unspecified by the query. -/
theorem claim4_sorted_by_timestamp_desc
    (st : Store) (table_name action record_id date_from date_to : Option String)
    (limit offset : Nat) (res : List Row)
    (h : get_audit_logs st table_name action record_id date_from date_to limit offset
        = Except.ok res) :
    res.Pairwise tsDesc := by
  cases hf : st.failing with
  | true => simp [get_audit_logs, readRows, hf] at h
  | false =>
    simp only [get_audit_logs, readRows, hf, Bool.false_eq_true, if_false,
      Except.ok.injEq] at h
    subst h
    exact List.Pairwise.sublist
      ((List.take_sublist _ _).trans (List.drop_sublist _ _)) (sortDesc_pairwise _)

/-- C4 witness: the amended statement at a concrete two-row store. -/
theorem claim4_witness : List.Pairwise tsDesc [rowNew, rowOld] :=
  claim4_sorted_by_timestamp_desc twoStore none none none none none 100 0 [rowNew, rowOld] rfl

/-- C5: every supplied (non-empty-string) filter is applied conjunctively —
each returned row satisfies all of them — and when no stored row matches the
result is the empty sequence, not an error.  (Python only appends a clause
for a truthy argument, so an empty-string filter value is the same as an
absent one; the non-emptiness premises reflect that.) -/
theorem claim5_filters_conjunctive
    (st : Store) (table_name action record_id date_from date_to : Option String)
    (limit offset : Nat) (res : List Row)
    (h : get_audit_logs st table_name action record_id date_from date_to limit offset
        = Except.ok res) :
    (∀ r ∈ res,
      (∀ s, table_name = some s → s ≠ "" → r.table_name = s) ∧
      (∀ s, action = some s → s ≠ "" → r.action = s) ∧
      (∀ s, record_id = some s → s ≠ "" → r.record_id = s) ∧
      (∀ s, date_from = some s → s ≠ "" → strLe s r.timestamp = true) ∧
      (∀ s, date_to = some s → s ≠ "" → strLe r.timestamp s = true)) ∧
    ((∀ r ∈ st.rows,
        rowMatches table_name action record_id date_from date_to r = false) → res = []) := by
  cases hf : st.failing with
  | true => simp [get_audit_logs, readRows, hf] at h
  | false =>
    simp only [get_audit_logs, readRows, hf, Bool.false_eq_true, if_false,
      Except.ok.injEq] at h
    subst h
    constructor
    · intro r hr
      have hr' : r ∈ st.rows.filter (rowMatches table_name action record_id date_from date_to) := by
        have h1 : r ∈ sortDesc (st.rows.filter
            (rowMatches table_name action record_id date_from date_to)) :=
          ((List.take_sublist _ _).trans (List.drop_sublist _ _)).subset hr
        exact (mem_sortDesc _ _).1 h1
      have hm := (List.mem_filter.1 hr').2
      simp only [rowMatches, Bool.and_eq_true] at hm
      obtain ⟨⟨⟨⟨h1, h2⟩, h3⟩, h4⟩, h5⟩ := hm
      refine ⟨?_, ?_, ?_, ?_, ?_⟩
      · intro s hs hne
        subst hs
        simp only [passes, if_neg hne] at h1
        exact eq_of_beq h1
      · intro s hs hne
        subst hs
        simp only [passes, if_neg hne] at h2
        exact eq_of_beq h2
      · intro s hs hne
        subst hs
        simp only [passes, if_neg hne] at h3
        exact eq_of_beq h3
      · intro s hs hne
        subst hs
        simpa only [passes, if_neg hne] using h4
      · intro s hs hne
        subst hs
        simpa only [passes, if_neg hne] using h5
    · intro hnone
      have hfil : st.rows.filter (rowMatches table_name action record_id date_from date_to) = [] :=
        List.filter_eq_nil_iff.2 (by intro a ha; simp [hnone a ha])
      rw [hfil]
      simp [sortDesc]

/-- C5 witness: filtering three tables by table and action returns only the
matching row, and the conjunctive properties hold for it. -/
theorem claim5_witness :
    rowInv.table_name = "Invoices" ∧ rowInv.action = "UPDATE" := by
  have h := claim5_filters_conjunctive threeStore (some "Invoices") (some "UPDATE")
    none none none 100 0 [rowInv] rfl
  have h2 := h.1 rowInv (List.mem_singleton.2 rfl)
  exact ⟨h2.1 "Invoices" rfl (by decide), h2.2.1 "UPDATE" rfl (by decide)⟩

/-- C7 counterexample: with a request whose `User-Agent` header and session
are absent, the stored row carries the empty string (from
`headers.get('User-Agent', '')` and `session.get('session_id', '')`), not
NULL as the claim requires. -/
theorem claim7_counterexample :
    ((log_action emptyStore "INSERT" "Invoices" "INV-1" none none none (some absentUA)
        "2024-01-01 10:00:00.000000").rows.map Row.user_agent) = [some ""] ∧
    ((log_action emptyStore "INSERT" "Invoices" "INV-1" none none none (some absentUA)
        "2024-01-01 10:00:00.000000").rows.map Row.session_id) = [some ""] ∧
    ((log_action emptyStore "INSERT" "Invoices" "INV-1" none none none (some absentUA)
        "2024-01-01 10:00:00.000000").rows.map Row.ip_address) = [some "1.2.3.4"] ∧
    (some "" : Option String) ≠ none :=
  ⟨rfl, rfl, rfl, by decide⟩

/-- C7 (amended): the three attribution fields are extracted independently
from the request and none of them can prevent the row from being written; an
absent network address is stored as NULL, while an absent user-agent or
session identifier is stored as the empty string. -/
theorem claim7_attribution_fields
    (st : Store) (action table_name record_id : String)
    (old_values new_values user_info : Option Snapshot) (r : Request) (now : String)
    (hf : st.failing = false) :
    (log_action st action table_name record_id old_values new_values user_info (some r) now).rows
      = st.rows ++ [logRow st.nextId now action table_name record_id
          old_values new_values user_info (some r)] ∧
    (logRow st.nextId now action table_name record_id
        old_values new_values user_info (some r)).ip_address = r.remote_addr ∧
    (logRow st.nextId now action table_name record_id
        old_values new_values user_info (some r)).user_agent = some (r.userAgent.getD "") ∧
    (logRow st.nextId now action table_name record_id
        old_values new_values user_info (some r)).session_id = some (r.sessionId.getD "") :=
  ⟨by simp [log_action, insertRow, hf], rfl, rfl, rfl⟩

/-- C7 witness: the amended statement at a request with only a user-agent. -/
theorem claim7_witness :
    (log_action emptyStore "INSERT" "Invoices" "INV-1" none none none (some demoRequest)
        "2024-01-01 10:00:00.000000").rows
      = emptyStore.rows ++ [logRow emptyStore.nextId "2024-01-01 10:00:00.000000" "INSERT"
          "Invoices" "INV-1" none none none (some demoRequest)] ∧
    (logRow emptyStore.nextId "2024-01-01 10:00:00.000000" "INSERT"
        "Invoices" "INV-1" none none none (some demoRequest)).ip_address
      = demoRequest.remote_addr ∧
    (logRow emptyStore.nextId "2024-01-01 10:00:00.000000" "INSERT"
        "Invoices" "INV-1" none none none (some demoRequest)).user_agent
      = some (demoRequest.userAgent.getD "") ∧
    (logRow emptyStore.nextId "2024-01-01 10:00:00.000000" "INSERT"
        "Invoices" "INV-1" none none none (some demoRequest)).session_id
      = some (demoRequest.sessionId.getD "") :=
  claim7_attribution_fields emptyStore "INSERT" "Invoices" "INV-1" none none none
    demoRequest "2024-01-01 10:00:00.000000" rfl

/-- C8: when the store raises during a read, both `get_audit_logs` and
`get_statistics` surface the failure to the caller (neither function has a
handler), and in particular neither returns an empty result in its place. -/
theorem claim8_read_errors_propagate
    (st : Store) (table_name action record_id date_from date_to : Option String)
    (limit offset : Nat) (dayAgo : String) (hf : st.failing = true) :
    get_audit_logs st table_name action record_id date_from date_to limit offset
        = Except.error DbError.unavailable ∧
    get_statistics st dayAgo = Except.error DbError.unavailable ∧
    (∀ l, get_audit_logs st table_name action record_id date_from date_to limit offset
        ≠ Except.ok l) ∧
    (∀ s, get_statistics st dayAgo ≠ Except.ok s) := by
  refine ⟨?_, ?_, ?_, ?_⟩ <;> simp [get_audit_logs, get_statistics, readRows, hf]

/-- C8 witness: both reads fail on a concrete unreachable store. -/
theorem claim8_witness :
    get_audit_logs badStore none none none none none 100 0
        = Except.error DbError.unavailable ∧
    get_statistics badStore "2024-01-01 10:00:00" = Except.error DbError.unavailable :=
  ⟨(claim8_read_errors_propagate badStore none none none none none 100 0
      "2024-01-01 10:00:00" rfl).1,
   (claim8_read_errors_propagate badStore none none none none none 100 0
      "2024-01-01 10:00:00" rfl).2.1⟩
